import Mathlib

/-!
# Verification of the mcp-glucose session-multiplexed transport

Shallow embedding of the mcp-glucose repository (TypeScript) in Lean 4.

The repository contains three server variants:
* `src/index.ts` — stdio single-tenant server (three glucose tools);
* `src/http-server.ts` — single-tenant SSE server (five tools, a
  `transports` map keyed by session id);
* the OAuth multi-tenant SSE server (five tools, a `transports` map, a
  `sessionTokens` credential map, and an `AsyncLocalStorage` ambient
  session context).

JavaScript `Map` objects (`transports`, `sessionTokens`) are modelled as
association lists with unique keys (`mget` / `mset` / `mdel`).  The
`AsyncLocalStorage` ambient session context is modelled as a reader-style
dynamic binding (`Option String` threaded through the computation):
`sessionContext.run(id, fn)` evaluates `fn` under ambient `some id`, and
`sessionContext.getStore()` reads the ambient value.  Remote collaborator
calls (axios / `HealthDataAPI`) are modelled as pure response functions
returning `Except String _` (the error string is the message the catch
block would extract).  JavaScript `Date` operations, which depend on the
wall clock and the engine's date parser, are abstracted into a `DateOps`
record of the exact operations the handlers perform.
-/

/-! ## Association-list model of the JavaScript Map -/

/-- JavaScript `Map.get(key)`: first value stored under `key`, if any. -/
def mget {α : Type} : List (String × α) → String → Option α
  | [], _ => none
  | (k, v) :: rest, key => if k = key then some v else mget rest key

/-- JavaScript `Map.delete(key)`: remove every entry whose key is `key`. -/
def mdel {α : Type} : List (String × α) → String → List (String × α)
  | [], _ => []
  | (k, v) :: rest, key =>
      if k = key then mdel rest key else (k, v) :: mdel rest key

/-- JavaScript `Map.set(key, v)`: insert `v` under `key`, replacing any prior entry. -/
def mset {α : Type} (m : List (String × α)) (key : String) (v : α) :
    List (String × α) :=
  (key, v) :: mdel m key

/-! ## Data model (`src/api-client.ts`)

`GlucoseReading` and `GlucoseStats` mirror the exported interfaces.
Numeric JSON values are modelled as rationals; no claim depends on
floating-point arithmetic or on the decimal rendering of a value. -/

structure GlucoseReading where
  value : Rat
  unit : String
  date : String
  source : String
deriving DecidableEq

structure GlucoseStats where
  count : Int
  average : Rat
  min : Rat
  max : Rat
  unit : String
deriving DecidableEq

/-- Parameters of `HealthDataAPI.getGlucoseReadings`. -/
structure ReadingsParams where
  userId : String
  startDate : Option String
  endDate : Option String
  limit : Option Int
deriving DecidableEq

/-- Parameters of `HealthDataAPI.getGlucoseStats`. -/
structure StatsParams where
  userId : String
  startDate : Option String
  endDate : Option String
deriving DecidableEq

/-- The remote collaborator (`HealthDataAPI` over axios), modelled as pure
response functions.  `Except.error msg` stands for a thrown request error
whose extracted message is `msg`; `getLatestGlucose` and
`getGlucoseStats` return `.ok none` for the HTTP-404 "no data" case the
client itself converts to `null`. -/
structure HealthDataAPI where
  getGlucoseReadings : ReadingsParams → Except String (List GlucoseReading)
  getLatestGlucose : String → Except String (Option GlucoseReading)
  getGlucoseStats : StatsParams → Except String (Option GlucoseStats)

/-! ## Protocol-level request/response model -/

/-- Arguments of a tool invocation (`request.params.arguments`); absent
fields are `none`.  The handlers read exactly these fields. -/
structure ToolArgs where
  query : Option String
  id : Option String
  userId : Option String
  startDate : Option String
  endDate : Option String
  limit : Option Int
deriving DecidableEq

/-- Tool arguments with every field absent (`arguments` missing). -/
def noArgs : ToolArgs := ⟨none, none, none, none, none, none⟩

/-- One content block of a tool response; `type` is always `"text"`. -/
structure ContentBlock where
  type : String
  text : String
deriving DecidableEq

/-- A tool-invocation response: `{content, isError}`; a response without
an `isError` field is modelled with `isError = false`. -/
structure ToolResponse where
  content : List ContentBlock
  isError : Bool
deriving DecidableEq

/-- Build the single-text-block response the handlers return. -/
def textResponse (s : String) (err : Bool) : ToolResponse :=
  ⟨[⟨"text", s⟩], err⟩

/-! ## JavaScript Date operations, abstracted

The handlers call `new Date(...)`, `Date.now()`, `toISOString`,
`toLocaleDateString` and `toLocaleTimeString`.  These depend on the wall
clock, the locale and the engine's date parser, so they are parameters of
the model.  `parseMs s = none` models `new Date(s)` yielding an Invalid
Date, in which case the subsequent `toISOString()` throws
`RangeError: Invalid time value`. -/

structure DateOps where
  nowIso : String
  todayStartIso : String
  yesterdayStartIso : String
  yesterdayEndIso : String
  msAgoIso : Nat → String
  parseMs : String → Option Int
  isoOfMs : Int → String
  localeDate : String → String
  localeTime : String → String

/-- A concrete `DateOps` whose parser treats `"2024-01-15T10"` (a
truncated ISO timestamp) as an Invalid Date, as Node's V8 does. -/
def strictDates : DateOps :=
  ⟨"2024-01-20T00:00:00.000Z", "2024-01-19T08:00:00.000Z",
   "2024-01-18T08:00:00.000Z", "2024-01-19T08:00:00.000Z",
   fun n => "ago:" ++ toString n,
   fun s => if s = "2024-01-15T10:30:00Z" then some 1705314600000 else none,
   fun n => "iso:" ++ toString n,
   fun _ => "1/15/2024", fun _ => "10:30:00 AM"⟩

/-- A concrete `DateOps` whose parser also accepts the truncated
`"2024-01-15T10"` (the lenient-parser scenario). -/
def lenientDates : DateOps :=
  ⟨"2024-01-20T00:00:00.000Z", "2024-01-19T08:00:00.000Z",
   "2024-01-18T08:00:00.000Z", "2024-01-19T08:00:00.000Z",
   fun n => "ago:" ++ toString n,
   fun s => if s = "2024-01-15T10" then some 1705312800000
            else if s = "2024-01-15T10:30:00Z" then some 1705314600000
            else none,
   fun n => "iso:" ++ toString n,
   fun _ => "1/15/2024", fun _ => "10:30:00 AM"⟩

/-! ## Date-query parsing (`parseGlucoseDateQuery`)

Identical in `src/http-server.ts` and the OAuth server. -/

/-- Does `pat` occur at the head of `l`? -/
def leadsWith : List Char → List Char → Bool
  | [], _ => true
  | _ :: _, [] => false
  | a :: as, b :: bs => a = b && leadsWith as bs

/-- Does `needle` occur anywhere in `hay`? -/
def hasSub : List Char → List Char → Bool
  | [], needle => leadsWith needle []
  | c :: cs, needle => leadsWith needle (c :: cs) || hasSub cs needle

/-- JavaScript `String.prototype.includes`. -/
def jsIncludes (s sub : String) : Bool := hasSub s.toList sub.toList

/-- Split a character list on a separator character (JavaScript
`String.prototype.split` with a single-character separator). -/
def splitChars (sep : Char) : List Char → List (List Char)
  | [] => [[]]
  | c :: cs =>
      let rest := splitChars sep cs
      if c = sep then [] :: rest
      else
        match rest with
        | [] => [[c]]
        | r :: rs => (c :: r) :: rs

/-- JavaScript `id.split(':')`. -/
def jsSplitColon (s : String) : List String :=
  (splitChars ':' s.toList).map (fun l => String.mk l)

/-- Leading-digit run of a character list (`(\d+)` at the cursor). -/
def digitRun : List Char → List Char × List Char
  | [] => ([], [])
  | c :: cs =>
      if c.isDigit then
        let p := digitRun cs
        (c :: p.1, p.2)
      else ([], c :: cs)

/-- Digits to a natural number (`parseInt` on a digit run). -/
def digitsVal (ds : List Char) : Nat :=
  ds.foldl (fun acc c => 10 * acc + (c.toNat - 48)) 0

/-- First match of the regular expression `last (\d+) days?`, returning
the captured number of days. -/
def lastDaysScan : List Char → Option Nat
  | [] => none
  | c :: cs =>
      if leadsWith ("last ".toList) (c :: cs) then
        let after := (c :: cs).drop 5
        let p := digitRun after
        if p.1 ≠ [] && leadsWith (" day".toList) p.2 then
          some (digitsVal p.1)
        else lastDaysScan cs
      else lastDaysScan cs

/-- The source's `parseGlucoseDateQuery(query)`: every branch returns both bounds. -/
def parseGlucoseDateQuery (env : DateOps) (query : String) :
    String × String :=
  let lower := query.toLower
  if jsIncludes lower "today" then (env.todayStartIso, env.nowIso)
  else if jsIncludes lower "yesterday" then
    (env.yesterdayStartIso, env.yesterdayEndIso)
  else
    match lastDaysScan lower.toList with
    | some days => (env.msAgoIso (days * 86400000), env.nowIso)
    | none =>
        if jsIncludes lower "last week" then
          (env.msAgoIso 604800000, env.nowIso)
        else (env.msAgoIso 604800000, env.nowIso)

/-! ## Success-payload rendering

The handlers produce success texts with `JSON.stringify(value, null, 2)`.
The field order and contents are modelled exactly; the two-space
pretty-printing layout is flattened to a single line, and JS decimal
number formatting is approximated by `toString` on rationals.  No claim
depends on the text of a success payload. -/

/-- JSON string literal. -/
def jstr (s : String) : String := "\"" ++ s ++ "\""

def jsonField (k v : String) : String := jstr k ++ ": " ++ v

def jsonObj (fields : List String) : String :=
  "\x7b" ++ String.intercalate ", " fields ++ "\x7d"

def jsonArr (xs : List String) : String :=
  "[" ++ String.intercalate ", " xs ++ "]"

/-- The `{value, unit, date, source}` object built from a reading. -/
def readingJson (r : GlucoseReading) : String :=
  jsonObj [jsonField "value" (toString r.value), jsonField "unit" (jstr r.unit),
           jsonField "date" (jstr r.date), jsonField "source" (jstr r.source)]

/-- One entry of the `search` result list. -/
def searchEntryJson (env : DateOps) (r : GlucoseReading) : String :=
  jsonObj [jsonField "id" (jstr ("reading:" ++ r.date)),
           jsonField "title" (jstr ("Glucose: " ++ toString r.value ++ " " ++ r.unit)),
           jsonField "text" (jstr ("Glucose reading of " ++ toString r.value ++ " " ++
             r.unit ++ " on " ++ env.localeDate r.date ++ " at " ++
             env.localeTime r.date ++ ". Source: " ++ r.source)),
           jsonField "url" (jstr "https://healthmate.app")]

def searchResultsJson (env : DateOps) (readings : List GlucoseReading) : String :=
  jsonObj [jsonField "results" (jsonArr (readings.map (searchEntryJson env)))]

/-- The `fetch` success payload, `retrieved_at` being the handling-time
`new Date().toISOString()`. -/
def fetchResultJson (env : DateOps) (id : String) (r : GlucoseReading) : String :=
  jsonObj [jsonField "id" (jstr id),
           jsonField "title" (jstr ("Glucose: " ++ toString r.value ++ " " ++ r.unit)),
           jsonField "text" (jstr (readingJson r)),
           jsonField "url" (jstr "https://healthmate.app"),
           jsonField "metadata" (jsonObj
             [jsonField "type" (jstr "glucose_reading"),
              jsonField "retrieved_at" (jstr env.nowIso)])]

def readingsListJson (readings : List GlucoseReading) : String :=
  jsonObj [jsonField "count" (toString readings.length),
           jsonField "readings" (jsonArr (readings.map readingJson))]

def statsJson (s : GlucoseStats) : String :=
  jsonObj [jsonField "count" (toString s.count),
           jsonField "average" (toString s.average),
           jsonField "min" (toString s.min),
           jsonField "max" (toString s.max),
           jsonField "unit" (jstr s.unit)]

/-! ## Tool branches

The five `switch` branches of the `CallToolRequestSchema` handler.  The
bodies are identical in `src/http-server.ts` and the OAuth server; the
stdio server has the last three.  A branch returns `Except.error msg`
where the source `throw`s an `Error(msg)` or an API call fails; the
surrounding `catch` turns `msg` into an error content block. -/

/-- Branch `case 'search'`. -/
def searchBranch (api : HealthDataAPI) (env : DateOps) (userId : String)
    (args : ToolArgs) : Except String ToolResponse :=
  match args.query with
  | none => .error "Query parameter is required"
  | some q =>
      if q = "" then .error "Query parameter is required"
      else
        let range := parseGlucoseDateQuery env q
        match api.getGlucoseReadings ⟨userId, some range.1, some range.2, some 100⟩ with
        | .error e => .error e
        | .ok readings => .ok (textResponse (searchResultsJson env readings) false)

/-- Branch `case 'fetch'`.  `id.split(':')` splits on *every* colon, so for an
id of the form `reading:<ISO timestamp with a time component>` the
destructured `timestamp` is the text before the second colon.  A `none`
from `parseMs` models `new Date(...)` yielding an Invalid Date, whose
`toISOString()` throws `RangeError: Invalid time value`. -/
def fetchBranch (api : HealthDataAPI) (env : DateOps) (userId : String)
    (args : ToolArgs) : Except String ToolResponse :=
  match args.id with
  | none => .error "ID parameter is required"
  | some id =>
      if id = "" then .error "ID parameter is required"
      else
        let parts := jsSplitColon id
        let ty := parts.headD ""
        if ty = "reading" then
          match parts[1]? with
          | none => .error "Invalid time value"
          | some ts =>
              match env.parseMs ts with
              | none => .error "Invalid time value"
              | some ms =>
                  match api.getGlucoseReadings
                      ⟨userId, some (env.isoOfMs (ms - 3600000)),
                       some (env.isoOfMs (ms + 3600000)), some 100⟩ with
                  | .error e => .error e
                  | .ok readings =>
                      match readings.find? (fun r => r.date == ts) with
                      | none => .error ("Reading not found for ID: " ++ id)
                      | some r =>
                          .ok (textResponse (fetchResultJson env id r) false)
        else .error ("Unknown type: " ++ ty)

/-- Branch `case 'get_glucose_readings'`; `(args?.limit as number) || 1000`
falls back on the falsy `0` as well. -/
def readingsBranch (api : HealthDataAPI) (userId : String)
    (args : ToolArgs) : Except String ToolResponse :=
  let lim : Int :=
    match args.limit with
    | some n => if n = 0 then 1000 else n
    | none => 1000
  match api.getGlucoseReadings ⟨userId, args.startDate, args.endDate, some lim⟩ with
  | .error e => .error e
  | .ok readings => .ok (textResponse (readingsListJson readings) false)

/-- Branch `case 'get_latest_glucose'`. -/
def latestBranch (api : HealthDataAPI) (userId : String) :
    Except String ToolResponse :=
  match api.getLatestGlucose userId with
  | .error e => .error e
  | .ok none => .ok (textResponse "No glucose readings found for this user." false)
  | .ok (some r) => .ok (textResponse (readingJson r) false)

/-- Branch `case 'get_glucose_stats'`. -/
def statsBranch (api : HealthDataAPI) (userId : String)
    (args : ToolArgs) : Except String ToolResponse :=
  match api.getGlucoseStats ⟨userId, args.startDate, args.endDate⟩ with
  | .error e => .error e
  | .ok none =>
      .ok (textResponse "No glucose data found for the specified time range." false)
  | .ok (some s) => .ok (textResponse (statsJson s) false)

/-- The five-way `switch` of the SSE servers; the `default` case throws
`Unknown tool: <name>`. -/
def runToolFive (api : HealthDataAPI) (env : DateOps) (userId name : String)
    (args : ToolArgs) : Except String ToolResponse :=
  if name = "search" then searchBranch api env userId args
  else if name = "fetch" then fetchBranch api env userId args
  else if name = "get_glucose_readings" then readingsBranch api userId args
  else if name = "get_latest_glucose" then latestBranch api userId
  else if name = "get_glucose_stats" then statsBranch api userId args
  else .error ("Unknown tool: " ++ name)

/-- The three-way `switch` of the stdio server (`src/index.ts`). -/
def runToolThree (api : HealthDataAPI) (userId name : String)
    (args : ToolArgs) : Except String ToolResponse :=
  if name = "get_glucose_readings" then readingsBranch api userId args
  else if name = "get_latest_glucose" then latestBranch api userId
  else if name = "get_glucose_stats" then statsBranch api userId args
  else .error ("Unknown tool: " ++ name)

/-! ## Single-tenant dispatchers (`src/index.ts`, `src/http-server.ts`) -/

/-- Expression `(args?.userId as string) || DEFAULT_USER_ID`: the argument is used
unless absent or the falsy empty string. -/
def effectiveUserId (args : ToolArgs) (defaultUserId : String) : String :=
  match args.userId with
  | some s => if s = "" then defaultUserId else s
  | none => defaultUserId

def userIdRequiredMsg : String :=
  "Error: userId is required. Either provide it in the tool call or set USER_ID environment variable."

/-- The `CallToolRequestSchema` handler of `src/http-server.ts`: the userId
guard runs before the `try`/`switch`; the `catch` yields
`Error: <message>` with `isError: true`. -/
def callToolHttp (api : HealthDataAPI) (env : DateOps)
    (defaultUserId name : String) (args : ToolArgs) : ToolResponse :=
  let userId := effectiveUserId args defaultUserId
  if userId = "" then textResponse userIdRequiredMsg true
  else
    match runToolFive api env userId name args with
    | .ok r => r
    | .error msg => textResponse ("Error: " ++ msg) true

/-- The `CallToolRequestSchema` handler of `src/index.ts` (stdio server). -/
def callToolStdio (api : HealthDataAPI) (defaultUserId name : String)
    (args : ToolArgs) : ToolResponse :=
  let userId := effectiveUserId args defaultUserId
  if userId = "" then textResponse userIdRequiredMsg true
  else
    match runToolThree api userId name args with
    | .ok r => r
    | .error msg => textResponse ("Error: " ++ msg) true

/-! ## Ambient session context (the Request Context Propagator)

`AsyncLocalStorage<string>` establishes a dynamically-scoped binding from
the current (asynchronous) execution to a session id.  A computation is
modelled reader-style as a function of the ambient value
(`Option String`); asynchronous continuations of a computation receive
the same ambient value the computation ran under, which is exactly the
store-propagation guarantee of `AsyncLocalStorage`.  Two concurrently
executing invocations are two independent function applications, so one
invocation's binding is never visible inside another's. -/

/-- Function `sessionContext.getStore()`. -/
def currentSession (ambient : Option String) : Option String := ambient

/-- Function `sessionContext.run(sessionId, fn)`: run `fn` with the ambient
binding set to `sessionId`, whatever the caller's ambient binding is. -/
def withSession {α : Type} (sessionId : String) (fn : Option String → α)
    (_ambient : Option String) : α :=
  fn (some sessionId)

/-- Sequencing of ambient-reading computations: the continuation `f`
(an `await`/`then` continuation) runs under the same ambient binding as
`m`. -/
def bindSession {α β : Type} (m : Option String → α)
    (f : α → Option String → β) (ambient : Option String) : β :=
  f (m ambient) ambient

/-! ## OAuth multi-tenant server (credential store, registry, dispatcher) -/

/-- Function `getCurrentAccessToken()`: recover the ambient session id, then the
token stored for it; `undefined` when either is absent. -/
def getCurrentAccessToken (ambient : Option String)
    (sessionTokens : List (String × String)) : Option String :=
  match currentSession ambient with
  | none => none
  | some sid => mget sessionTokens sid

def reAuthMsg : String :=
  "❌ Error: No access token available. Please re-authenticate."

/-- Environment of the OAuth dispatcher: date operations plus the
collaborator client as a function of the Bearer token it is constructed
with (`new HealthDataAPI(BACKEND_URL, accessToken, true)`). -/
structure OAuthEnv where
  dates : DateOps
  apiOf : String → HealthDataAPI

/-- The `CallToolRequestSchema` handler of the OAuth server: missing
credential is checked before the `switch`; `userId` is the hardcoded
placeholder `'oauth-user'`; the `catch` yields `❌ Error: <message>`. -/
def callToolOAuth (accessToken : Option String) (env : OAuthEnv)
    (name : String) (args : ToolArgs) : ToolResponse :=
  match accessToken with
  | none => textResponse reAuthMsg true
  | some tok =>
      match runToolFive (env.apiOf tok) env.dates "oauth-user" name args with
      | .ok r => r
      | .error msg => textResponse ("❌ Error: " ++ msg) true

/-! ## Tool descriptors -/

structure SchemaProp where
  name : String
  type : String
  description : String
deriving DecidableEq

structure InputSchema where
  type : String
  properties : List SchemaProp
  required : List String
deriving DecidableEq

structure ToolDesc where
  name : String
  description : String
  inputSchema : InputSchema
deriving DecidableEq

/-- Description `User identifier. Defaults to ${DEFAULT_USER_ID || 'configured user'}
if not specified.` — interpolated once, at startup. -/
def userIdDesc (defaultUserId : String) : String :=
  "User identifier. Defaults to " ++
    (if defaultUserId = "" then "configured user" else defaultUserId) ++
    " if not specified."

def searchQueryDesc : String :=
  "Search query for glucose data. Can include keywords like \"today\", \"yesterday\", \"last week\", \"last 30 days\", or specific dates."

def fetchIdDesc : String :=
  "The unique identifier for the reading. Format: \"reading:timestamp\" (e.g., \"reading:2024-01-15T10:30:00Z\")"

/-- The `TOOLS` constant of `src/http-server.ts`, computed once at
startup from the `USER_ID` environment variable. -/
def TOOLS (defaultUserId : String) : List ToolDesc :=
  [⟨"search",
    "Search through glucose/blood sugar readings. Query can include date ranges or natural language.",
    ⟨"object",
     [⟨"query", "string", searchQueryDesc⟩,
      ⟨"userId", "string", userIdDesc defaultUserId⟩],
     ["query"]⟩⟩,
   ⟨"fetch",
    "Retrieve complete details for a specific glucose reading by ID. Use this after finding readings with the search tool.",
    ⟨"object",
     [⟨"id", "string", fetchIdDesc⟩,
      ⟨"userId", "string", userIdDesc defaultUserId⟩],
     ["id"]⟩⟩,
   ⟨"get_glucose_readings",
    "Get glucose/blood sugar readings for a user within a date range. Returns glucose values in mg/dL with timestamps and sources.",
    ⟨"object",
     [⟨"userId", "string", userIdDesc defaultUserId⟩,
      ⟨"startDate", "string", "Start date in ISO 8601 format (e.g., 2025-10-01T00:00:00Z). Optional."⟩,
      ⟨"endDate", "string", "End date in ISO 8601 format (e.g., 2025-10-22T23:59:59Z). Optional."⟩,
      ⟨"limit", "number", "Maximum number of readings to return (default: 1000)"⟩],
     []⟩⟩,
   ⟨"get_latest_glucose",
    "Get the most recent glucose/blood sugar reading for a user. Returns value, unit, timestamp, and source.",
    ⟨"object",
     [⟨"userId", "string", userIdDesc defaultUserId⟩],
     []⟩⟩,
   ⟨"get_glucose_stats",
    "Get glucose statistics (count, average, min, max) for a user within a date range. Useful for understanding glucose trends and patterns.",
    ⟨"object",
     [⟨"userId", "string", userIdDesc defaultUserId⟩,
      ⟨"startDate", "string", "Start date in ISO 8601 format. Optional."⟩,
      ⟨"endDate", "string", "End date in ISO 8601 format. Optional."⟩],
     []⟩⟩]

/-- The tool list the OAuth server's `ListToolsRequestSchema` handler
builds; it is a fixed literal, the same on every call. -/
def oauthTools : List ToolDesc :=
  [⟨"search",
    "Search through glucose/blood sugar readings. Query can include date ranges or natural language.",
    ⟨"object", [⟨"query", "string", searchQueryDesc⟩], ["query"]⟩⟩,
   ⟨"fetch",
    "Retrieve complete details for a specific glucose reading by ID. Use this after finding readings with the search tool.",
    ⟨"object", [⟨"id", "string", fetchIdDesc⟩], ["id"]⟩⟩,
   ⟨"get_glucose_readings",
    "Get glucose/blood sugar readings for a user within a date range. Returns glucose values in mg/dL with timestamps and sources.",
    ⟨"object",
     [⟨"startDate", "string", "Start date in ISO 8601 format (e.g., 2025-10-01T00:00:00Z). Optional."⟩,
      ⟨"endDate", "string", "End date in ISO 8601 format (e.g., 2025-10-22T23:59:59Z). Optional."⟩,
      ⟨"limit", "number", "Maximum number of readings to return (default: 1000)"⟩],
     []⟩⟩,
   ⟨"get_latest_glucose",
    "Get the most recent glucose/blood sugar reading for a user. Returns value, unit, timestamp, and source.",
    ⟨"object", [], []⟩⟩,
   ⟨"get_glucose_stats",
    "Get glucose statistics (count, average, min, max) for a user within a date range. Useful for understanding glucose trends and patterns.",
    ⟨"object",
     [⟨"startDate", "string", "Start date in ISO 8601 format. Optional."⟩,
      ⟨"endDate", "string", "End date in ISO 8601 format. Optional."⟩],
     []⟩⟩]

/-! ## Protocol messages and message routing -/

inductive McpRequest where
  | listTools
  | callTool (name : String) (args : ToolArgs)
deriving DecidableEq

inductive McpResponse where
  | toolList (tools : List ToolDesc)
  | toolResult (r : ToolResponse)
deriving DecidableEq

/-- The shared OAuth `Server`'s protocol handler, dispatching one MCP
request under a given ambient binding and credential store. -/
def dispatchOAuth (ambient : Option String)
    (sessionTokens : List (String × String)) (env : OAuthEnv) :
    McpRequest → McpResponse
  | .listTools => .toolList oauthTools
  | .callTool name args =>
      .toolResult (callToolOAuth (getCurrentAccessToken ambient sessionTokens)
        env name args)

/-- Mutable state of the OAuth server: the Session Registry
(`transports`, handles modelled as opaque numbers) and the Credential
Store (`sessionTokens`). -/
structure OAuthState where
  transports : List (String × Nat)
  sessionTokens : List (String × String)
deriving DecidableEq

/-- The `/sse` success path: register the transport under the SDK-generated
session id, then store the Bearer token for that session. -/
def sseOpen (st : OAuthState) (sessionId : String) (transport : Nat)
    (accessToken : String) : OAuthState :=
  ⟨mset st.transports sessionId transport,
   mset st.sessionTokens sessionId accessToken⟩

/-- The `req.on('close')` / `req.on('error')` teardown: deregister the
session id from both maps. -/
def sseClose (st : OAuthState) (sessionId : String) : OAuthState :=
  ⟨mdel st.transports sessionId, mdel st.sessionTokens sessionId⟩

inductive MessageOutcome where
  | clientError (status : Nat) (body : String)
  | handled (resp : McpResponse)
deriving DecidableEq

def oauthMissingSessionMsg : String := "sessionId query parameter is required"

def oauthNoTransportMsg : String :=
  "No active SSE connection for this session. Please connect to /sse first."

/-- Handler `app.post('/message')` of the OAuth server: 400 when the `sessionId`
query parameter is falsy, 404 when no transport is registered for it,
otherwise dispatch under `sessionContext.run(sessionId, ...)`; the
Express handler itself runs outside any session scope (ambient
`none`). -/
def handleMessageOAuth (st : OAuthState) (env : OAuthEnv)
    (sessionIdParam : Option String) (msg : McpRequest) : MessageOutcome :=
  match sessionIdParam with
  | none => .clientError 400 oauthMissingSessionMsg
  | some sid =>
      if sid = "" then .clientError 400 oauthMissingSessionMsg
      else
        match mget st.transports sid with
        | none => .clientError 404 oauthNoTransportMsg
        | some _ =>
            .handled (withSession sid
              (fun ambient => dispatchOAuth ambient st.sessionTokens env msg)
              none)

/-! ## Single-tenant SSE server routing (`src/http-server.ts`) -/

/-- State of the single-tenant SSE server: only the transports map. -/
structure HttpState where
  transports : List (String × Nat)
deriving DecidableEq

inductive HttpMessageOutcome where
  | badRequest (body : String)
  | notFound (sessionId : String) (availableSessions : List String)
  | handled (resp : McpResponse)
deriving DecidableEq

/-- The single-tenant server's protocol dispatch (no ambient context,
one shared API client configured at startup). -/
def dispatchHttp (api : HealthDataAPI) (env : DateOps)
    (defaultUserId : String) : McpRequest → McpResponse
  | .listTools => .toolList (TOOLS defaultUserId)
  | .callTool name args => .toolResult (callToolHttp api env defaultUserId name args)

/-- Handler `app.post('/message')` of `src/http-server.ts`: 400 on a falsy
`sessionId`, a 404 JSON body carrying the id and the registered session
ids when unknown, otherwise forward to the transport's handler. -/
def handleMessageHttp (st : HttpState) (api : HealthDataAPI) (env : DateOps)
    (defaultUserId : String) (sessionIdParam : Option String)
    (msg : McpRequest) : HttpMessageOutcome :=
  match sessionIdParam with
  | none => .badRequest "Missing sessionId parameter"
  | some sid =>
      if sid = "" then .badRequest "Missing sessionId parameter"
      else
        match mget st.transports sid with
        | none => .notFound sid (st.transports.map Prod.fst)
        | some _ => .handled (dispatchHttp api env defaultUserId msg)

/-! ## Concrete sample values (used by witnesses) -/

/-- A reading carrying the timestamp of the spec's fetch example. -/
def exampleReading : GlucoseReading :=
  ⟨95, "mg/dL", "2024-01-15T10:30:00Z", "Lingo"⟩

/-- A collaborator whose in-range query returns exactly
`exampleReading`, whatever the window. -/
def windowApi : HealthDataAPI :=
  ⟨fun _ => .ok [exampleReading], fun _ => .ok none, fun _ => .ok none⟩

/-- A collaborator with no data at all. -/
def emptyApi : HealthDataAPI :=
  ⟨fun _ => .ok [], fun _ => .ok none, fun _ => .ok none⟩

/-- A second, observably different collaborator (used to show a result
does not depend on the collaborator). -/
def otherApi : HealthDataAPI :=
  ⟨fun _ => .error "network down", fun _ => .error "network down",
   fun _ => .error "network down"⟩

def sampleOAuthEnv : OAuthEnv := ⟨strictDates, fun _ => windowApi⟩

def sampleOAuthState : OAuthState :=
  ⟨[("sid-1", 11), ("sid-2", 22)], [("sid-1", "tok-1"), ("sid-2", "tok-2")]⟩

def sampleHttpState : HttpState := ⟨[("sid-1", 11)]⟩

/-! # Theorems -/

theorem mget_mdel_self {α : Type} (m : List (String × α)) (k : String) :
    mget (mdel m k) k = none := by
  induction m with
  | nil => rfl
  | cons p rest ih =>
      obtain ⟨k₀, v₀⟩ := p
      by_cases h : k₀ = k
      · simp [mdel, h, ih]
      · simp [mdel, mget, h, ih]

theorem mget_mdel_ne {α : Type} (m : List (String × α)) (k j : String)
    (h : j ≠ k) : mget (mdel m k) j = mget m j := by
  induction m with
  | nil => rfl
  | cons p rest ih =>
      obtain ⟨k₀, v₀⟩ := p
      by_cases hk : k₀ = k
      · subst hk
        have hne : k₀ ≠ j := fun e => h e.symm
        simp [mdel, mget, hne, ih]
      · by_cases hj : k₀ = j <;> simp [mdel, mget, hk, hj, h, ih]

theorem mget_mset_self {α : Type} (m : List (String × α)) (k : String)
    (v : α) : mget (mset m k v) k = some v := by
  simp [mset, mget]

theorem mget_mset_ne {α : Type} (m : List (String × α)) (k j : String)
    (v : α) (h : j ≠ k) : mget (mset m k v) j = mget m j := by
  have hne : k ≠ j := fun e => h e.symm
  simp [mset, mget, hne, mget_mdel_ne m k j h]

theorem mdel_mdel_self {α : Type} (m : List (String × α)) (k : String) :
    mdel (mdel m k) k = mdel m k := by
  induction m with
  | nil => rfl
  | cons p rest ih =>
      obtain ⟨k₀, v₀⟩ := p
      by_cases h : k₀ = k <;> simp [mdel, h, ih]

theorem mdel_of_mget_none {α : Type} (m : List (String × α)) (k : String)
    (h : mget m k = none) : mdel m k = m := by
  induction m with
  | nil => rfl
  | cons p rest ih =>
      obtain ⟨k₀, v₀⟩ := p
      by_cases hk : k₀ = k
      · simp [mget, hk] at h
      · simp [mget, hk] at h
        simp [mdel, hk, ih h]

/-! ## Claim theorems -/

/-- Claim C2: Scoped ambient session binding.  Under `withSession id fn`
(`sessionContext.run(id, fn)`), `currentSession()` returns `id` anywhere
in `fn`'s dynamic extent, including asynchronous continuations
(`bindSession`); after `withSession` returns, the caller's ambient
binding is what it was — in particular absent when the caller is outside
any session scope, as the `/message` Express handler is; and the binding
of one invocation is never visible inside a concurrent invocation for a
different session id. -/
theorem withSession_scoped_binding
    (id id2 : String) (amb amb2 : Option String)
    (m : Option String → Nat) (hne : id ≠ id2) :
    withSession id currentSession amb = some id ∧
    withSession id (bindSession m (fun _ => currentSession)) amb = some id ∧
    bindSession (withSession id m) (fun _ => currentSession) amb = amb ∧
    bindSession (withSession id m) (fun _ => currentSession) none = none ∧
    withSession id currentSession amb = withSession id currentSession amb2 ∧
    withSession id currentSession amb ≠ withSession id2 currentSession amb2 := by
  refine ⟨rfl, rfl, rfl, rfl, rfl, ?_⟩
  simp [withSession, currentSession, hne]

theorem withSession_scoped_binding_witness :
    "sid-1" ≠ "sid-2" ∧
    (withSession "sid-1" currentSession none = some "sid-1" ∧
     withSession "sid-1" (bindSession (fun _ => 0) (fun _ => currentSession)) none = some "sid-1" ∧
     bindSession (withSession "sid-1" (fun _ => 0)) (fun _ => currentSession) none = none ∧
     bindSession (withSession "sid-1" (fun _ => 0)) (fun _ => currentSession) none = none ∧
     withSession "sid-1" currentSession none = withSession "sid-1" currentSession (some "x") ∧
     withSession "sid-1" currentSession none ≠ withSession "sid-2" currentSession (some "x")) :=
  ⟨by decide,
   withSession_scoped_binding "sid-1" "sid-2" none (some "x") (fun _ => 0) (by decide)⟩

/-- Claim C6: Missing ambient credential at invocation time — the session
context absent, or no token stored for the current session — yields a
normal response with `isError: true` and the re-authentication message,
for every capability name; the dispatch never becomes a transport-level
failure. -/
theorem missing_credential_reauth
    (ambient : Option String) (tokens : List (String × String))
    (env : OAuthEnv) (name : String) (args : ToolArgs)
    (h : getCurrentAccessToken ambient tokens = none) :
    callToolOAuth (getCurrentAccessToken ambient tokens) env name args =
      textResponse reAuthMsg true ∧
    dispatchOAuth ambient tokens env (.callTool name args) =
      .toolResult (textResponse reAuthMsg true) := by
  rw [dispatchOAuth, h]
  exact ⟨rfl, rfl⟩

theorem missing_credential_reauth_witness :
    getCurrentAccessToken none [("sid-1", "tok-1")] = none ∧
    (callToolOAuth (getCurrentAccessToken none [("sid-1", "tok-1")])
        sampleOAuthEnv "get_latest_glucose" noArgs =
      textResponse reAuthMsg true ∧
     dispatchOAuth none [("sid-1", "tok-1")] sampleOAuthEnv
        (.callTool "get_latest_glucose" noArgs) =
      .toolResult (textResponse reAuthMsg true)) :=
  ⟨rfl, missing_credential_reauth none [("sid-1", "tok-1")] sampleOAuthEnv
    "get_latest_glucose" noArgs rfl⟩

/-- Claim C7: Teardown removes the session id from both the Session Registry
and the Credential Store, leaves every other session untouched, is
idempotent (a second close of the same id changes nothing), and is a
harmless no-op on a session that was never (or only partially)
registered — `st0` is any state with no entry for `sid` in either map,
and the removal conjuncts hold for arbitrary states, covering partial
construction. -/
theorem sseClose_idempotent_teardown
    (st st0 : OAuthState) (sid sid2 : String) (hne : sid2 ≠ sid)
    (h1 : mget st0.transports sid = none)
    (h2 : mget st0.sessionTokens sid = none) :
    mget (sseClose st sid).transports sid = none ∧
    mget (sseClose st sid).sessionTokens sid = none ∧
    sseClose (sseClose st sid) sid = sseClose st sid ∧
    mget (sseClose st sid).transports sid2 = mget st.transports sid2 ∧
    mget (sseClose st sid).sessionTokens sid2 = mget st.sessionTokens sid2 ∧
    sseClose st0 sid = st0 := by
  refine ⟨mget_mdel_self _ _, mget_mdel_self _ _, ?_,
    mget_mdel_ne _ _ _ hne, mget_mdel_ne _ _ _ hne, ?_⟩
  · simp [sseClose, mdel_mdel_self]
  · cases st0 with
    | mk t s =>
        simp only [sseClose] at h1 h2 ⊢
        rw [mdel_of_mget_none _ _ h1, mdel_of_mget_none _ _ h2]

theorem sseClose_idempotent_teardown_witness :
    ("sid-2" ≠ "sid-1" ∧
     mget (OAuthState.mk [("sid-2", 22)] []).transports "sid-1" = none ∧
     mget (OAuthState.mk [("sid-2", 22)] []).sessionTokens "sid-1" = none) ∧
    (mget (sseClose sampleOAuthState "sid-1").transports "sid-1" = none ∧
     mget (sseClose sampleOAuthState "sid-1").sessionTokens "sid-1" = none ∧
     sseClose (sseClose sampleOAuthState "sid-1") "sid-1" =
       sseClose sampleOAuthState "sid-1" ∧
     mget (sseClose sampleOAuthState "sid-1").transports "sid-2" =
       mget sampleOAuthState.transports "sid-2" ∧
     mget (sseClose sampleOAuthState "sid-1").sessionTokens "sid-2" =
       mget sampleOAuthState.sessionTokens "sid-2" ∧
     sseClose (OAuthState.mk [("sid-2", 22)] []) "sid-1" =
       OAuthState.mk [("sid-2", 22)] []) :=
  ⟨⟨by decide, by decide, by decide⟩,
   sseClose_idempotent_teardown sampleOAuthState (OAuthState.mk [("sid-2", 22)] [])
     "sid-1" "sid-2" (by decide) (by decide) (by decide)⟩

/-- Claim C8: Post-close rejection and no credential resurrection.  After
`sseClose`, a message routed to the former session id gets the 404
`SessionNotFound` outcome (it fails fast rather than dispatching); the
credential entry for the id is gone; and a later session opened under
that exact identifier observes only its own fresh token, never the old
one. -/
theorem post_close_rejection_no_resurrection
    (st : OAuthState) (env : OAuthEnv) (sid : String) (msg : McpRequest)
    (newTransport : Nat) (newTok oldTok : String)
    (_hprev : mget st.sessionTokens sid = some oldTok)
    (hdiff : newTok ≠ oldTok) (hsid : sid ≠ "") :
    handleMessageOAuth (sseClose st sid) env (some sid) msg =
      .clientError 404 oauthNoTransportMsg ∧
    mget (sseClose st sid).sessionTokens sid = none ∧
    getCurrentAccessToken (some sid)
      (sseOpen (sseClose st sid) sid newTransport newTok).sessionTokens =
      some newTok ∧
    getCurrentAccessToken (some sid)
      (sseOpen (sseClose st sid) sid newTransport newTok).sessionTokens ≠
      some oldTok := by
  refine ⟨?_, mget_mdel_self _ _, ?_, ?_⟩
  · simp [handleMessageOAuth, sseClose, hsid, mget_mdel_self]
  · simp [getCurrentAccessToken, currentSession, sseOpen, sseClose, mget_mset_self]
  · simp [getCurrentAccessToken, currentSession, sseOpen, sseClose,
      mget_mset_self, hdiff]

theorem post_close_rejection_no_resurrection_witness :
    (mget sampleOAuthState.sessionTokens "sid-1" = some "tok-1" ∧
     "tok-9" ≠ "tok-1" ∧ "sid-1" ≠ "") ∧
    (handleMessageOAuth (sseClose sampleOAuthState "sid-1") sampleOAuthEnv
        (some "sid-1") .listTools = .clientError 404 oauthNoTransportMsg ∧
     mget (sseClose sampleOAuthState "sid-1").sessionTokens "sid-1" = none ∧
     getCurrentAccessToken (some "sid-1")
        (sseOpen (sseClose sampleOAuthState "sid-1") "sid-1" 33 "tok-9").sessionTokens =
        some "tok-9" ∧
     getCurrentAccessToken (some "sid-1")
        (sseOpen (sseClose sampleOAuthState "sid-1") "sid-1" 33 "tok-9").sessionTokens ≠
        some "tok-1") :=
  ⟨⟨by decide, by decide, by decide⟩,
   post_close_rejection_no_resurrection sampleOAuthState sampleOAuthEnv "sid-1"
     .listTools 33 "tok-9" "tok-1" (by decide) (by decide) (by decide)⟩

/-- Claim C9: Static capability listing.  The list-capabilities operation
returns the fixed descriptor set: in the OAuth server it is the constant
`oauthTools` whatever the ambient session, the credential store or the
environment (so no open, close or prior invocation changes it), and in
the single-tenant SSE server it is the `TOOLS` constant computed once at
startup from the configured default user. -/
theorem listing_static
    (st st2 : OAuthState) (env env2 : OAuthEnv) (api : HealthDataAPI)
    (denv : DateOps) (du : String) (amb amb2 : Option String)
    (sid : String) (tr : Nat) (tok : String) :
    dispatchOAuth amb st.sessionTokens env .listTools = .toolList oauthTools ∧
    dispatchOAuth amb st.sessionTokens env .listTools =
      dispatchOAuth amb2 st2.sessionTokens env2 .listTools ∧
    dispatchOAuth amb (sseOpen st sid tr tok).sessionTokens env .listTools =
      dispatchOAuth amb st.sessionTokens env .listTools ∧
    dispatchOAuth amb (sseClose st sid).sessionTokens env .listTools =
      dispatchOAuth amb st.sessionTokens env .listTools ∧
    dispatchHttp api denv du .listTools = .toolList (TOOLS du) :=
  ⟨rfl, rfl, rfl, rfl, rfl⟩

/-- Claim C1: Credential isolation across sessions.  Routing an inbound
message addressed to a registered session id dispatches under that id's
ambient binding, and the ambient credential recovered inside the dispatch
(`getCurrentAccessToken`) is exactly the credential-store entry for that
same session id at routing time; the outcome is unchanged by another
session's open or close — the only mutations of the shared maps — so
concurrent traffic for other sessions can never substitute its
credential.  (Dispatch itself only reads the maps, so concurrent
dispatches are independent applications of this same function.) -/
theorem credential_isolation
    (st : OAuthState) (env : OAuthEnv) (sid sid2 : String)
    (tr tr2 : Nat) (tok2 name : String) (args : ToolArgs)
    (hreg : mget st.transports sid = some tr)
    (hne : sid2 ≠ sid) (hsid : sid ≠ "") :
    handleMessageOAuth st env (some sid) (.callTool name args) =
      .handled (.toolResult
        (callToolOAuth (mget st.sessionTokens sid) env name args)) ∧
    getCurrentAccessToken (some sid) st.sessionTokens =
      mget st.sessionTokens sid ∧
    handleMessageOAuth (sseOpen st sid2 tr2 tok2) env (some sid)
        (.callTool name args) =
      handleMessageOAuth st env (some sid) (.callTool name args) ∧
    handleMessageOAuth (sseClose st sid2) env (some sid)
        (.callTool name args) =
      handleMessageOAuth st env (some sid) (.callTool name args) := by
  have hne2 : sid ≠ sid2 := fun e => hne e.symm
  have h1 : handleMessageOAuth st env (some sid) (.callTool name args) =
      .handled (.toolResult
        (callToolOAuth (mget st.sessionTokens sid) env name args)) := by
    simp [handleMessageOAuth, hsid, hreg, withSession, dispatchOAuth,
      getCurrentAccessToken, currentSession]
  have eo1 : mget (sseOpen st sid2 tr2 tok2).transports sid = some tr := by
    rw [sseOpen]; rw [mget_mset_ne _ _ _ _ hne2]; exact hreg
  have eo2 : mget (sseOpen st sid2 tr2 tok2).sessionTokens sid =
      mget st.sessionTokens sid := by
    rw [sseOpen]; exact mget_mset_ne _ _ _ _ hne2
  have h2 : handleMessageOAuth (sseOpen st sid2 tr2 tok2) env (some sid)
      (.callTool name args) =
      .handled (.toolResult
        (callToolOAuth (mget st.sessionTokens sid) env name args)) := by
    simp [handleMessageOAuth, hsid, eo1, withSession, dispatchOAuth,
      getCurrentAccessToken, currentSession, eo2]
  have ec1 : mget (sseClose st sid2).transports sid = some tr := by
    rw [sseClose]; rw [mget_mdel_ne _ _ _ hne2]; exact hreg
  have ec2 : mget (sseClose st sid2).sessionTokens sid =
      mget st.sessionTokens sid := by
    rw [sseClose]; exact mget_mdel_ne _ _ _ hne2
  have h3 : handleMessageOAuth (sseClose st sid2) env (some sid)
      (.callTool name args) =
      .handled (.toolResult
        (callToolOAuth (mget st.sessionTokens sid) env name args)) := by
    simp [handleMessageOAuth, hsid, ec1, withSession, dispatchOAuth,
      getCurrentAccessToken, currentSession, ec2]
  exact ⟨h1, rfl, h2.trans h1.symm, h3.trans h1.symm⟩

theorem credential_isolation_witness :
    (mget sampleOAuthState.transports "sid-1" = some 11 ∧
     "sid-9" ≠ "sid-1" ∧ "sid-1" ≠ "") ∧
    (handleMessageOAuth sampleOAuthState sampleOAuthEnv (some "sid-1")
        (.callTool "get_latest_glucose" noArgs) =
      .handled (.toolResult
        (callToolOAuth (mget sampleOAuthState.sessionTokens "sid-1")
          sampleOAuthEnv "get_latest_glucose" noArgs)) ∧
     getCurrentAccessToken (some "sid-1") sampleOAuthState.sessionTokens =
       mget sampleOAuthState.sessionTokens "sid-1" ∧
     handleMessageOAuth (sseOpen sampleOAuthState "sid-9" 99 "tok-9")
        sampleOAuthEnv (some "sid-1") (.callTool "get_latest_glucose" noArgs) =
       handleMessageOAuth sampleOAuthState sampleOAuthEnv (some "sid-1")
        (.callTool "get_latest_glucose" noArgs) ∧
     handleMessageOAuth (sseClose sampleOAuthState "sid-9") sampleOAuthEnv
        (some "sid-1") (.callTool "get_latest_glucose" noArgs) =
       handleMessageOAuth sampleOAuthState sampleOAuthEnv (some "sid-1")
        (.callTool "get_latest_glucose" noArgs)) :=
  ⟨⟨by decide, by decide, by decide⟩,
   credential_isolation sampleOAuthState sampleOAuthEnv "sid-1" "sid-9" 11 99
     "tok-9" "get_latest_glucose" noArgs (by decide) (by decide) (by decide)⟩

/-- Claim C3: Message-routing rejection.  In both SSE servers, a POST to the
message endpoint with the `sessionId` parameter absent (or the falsy
empty string) yields the 400 client error, and a `sessionId` with no
registered transport yields the 404 "no active connection" client error;
the handler is a total function into these outcomes — it never throws an
unrecoverable fault. -/
theorem message_routing_rejection
    (st : OAuthState) (env : OAuthEnv) (hst : HttpState)
    (api : HealthDataAPI) (denv : DateOps) (du : String)
    (msg : McpRequest) (sid : String) (hsid : sid ≠ "")
    (h404 : mget st.transports sid = none)
    (h404h : mget hst.transports sid = none) :
    handleMessageOAuth st env none msg =
      .clientError 400 oauthMissingSessionMsg ∧
    handleMessageOAuth st env (some "") msg =
      .clientError 400 oauthMissingSessionMsg ∧
    handleMessageOAuth st env (some sid) msg =
      .clientError 404 oauthNoTransportMsg ∧
    handleMessageHttp hst api denv du none msg =
      .badRequest "Missing sessionId parameter" ∧
    handleMessageHttp hst api denv du (some "") msg =
      .badRequest "Missing sessionId parameter" ∧
    handleMessageHttp hst api denv du (some sid) msg =
      .notFound sid (hst.transports.map Prod.fst) := by
  refine ⟨rfl, by simp [handleMessageOAuth], ?_, rfl, by simp [handleMessageHttp], ?_⟩
  · simp [handleMessageOAuth, hsid, h404]
  · simp [handleMessageHttp, hsid, h404h]

theorem message_routing_rejection_witness :
    ("ghost" ≠ "" ∧
     mget sampleOAuthState.transports "ghost" = none ∧
     mget sampleHttpState.transports "ghost" = none) ∧
    (handleMessageOAuth sampleOAuthState sampleOAuthEnv none .listTools =
       .clientError 400 oauthMissingSessionMsg ∧
     handleMessageOAuth sampleOAuthState sampleOAuthEnv (some "") .listTools =
       .clientError 400 oauthMissingSessionMsg ∧
     handleMessageOAuth sampleOAuthState sampleOAuthEnv (some "ghost") .listTools =
       .clientError 404 oauthNoTransportMsg ∧
     handleMessageHttp sampleHttpState windowApi strictDates "lucas@example.com"
        none .listTools = .badRequest "Missing sessionId parameter" ∧
     handleMessageHttp sampleHttpState windowApi strictDates "lucas@example.com"
        (some "") .listTools = .badRequest "Missing sessionId parameter" ∧
     handleMessageHttp sampleHttpState windowApi strictDates "lucas@example.com"
        (some "ghost") .listTools =
       .notFound "ghost" (sampleHttpState.transports.map Prod.fst)) :=
  ⟨⟨by decide, by decide, by decide⟩,
   message_routing_rejection sampleOAuthState sampleOAuthEnv sampleHttpState
     windowApi strictDates "lucas@example.com" .listTools "ghost"
     (by decide) (by decide) (by decide)⟩

/-- Claim C4 counterexample: invoking the unknown tool name `"bogus"` does not
produce the content block text `Unknown tool: bogus` the claim requires:
the single-tenant SSE server's catch produces `Error: Unknown tool: bogus`
and the OAuth server's catch produces `❌ Error: Unknown tool: bogus`. -/
theorem unknown_tool_exact_text_refuted :
    (callToolHttp windowApi strictDates "lucas@example.com" "bogus" noArgs).content ≠
      [⟨"text", "Unknown tool: bogus"⟩] ∧
    callToolHttp windowApi strictDates "lucas@example.com" "bogus" noArgs =
      textResponse "Error: Unknown tool: bogus" true ∧
    (callToolOAuth (some "tok-1") sampleOAuthEnv "bogus" noArgs).content ≠
      [⟨"text", "Unknown tool: bogus"⟩] ∧
    callToolOAuth (some "tok-1") sampleOAuthEnv "bogus" noArgs =
      textResponse "❌ Error: Unknown tool: bogus" true := by
  exact ⟨by decide, by decide, by decide, by decide⟩

/-- Claim C4 amended: for every tool name outside the fixed capability set
{search, fetch, get_glucose_readings, get_latest_glucose,
get_glucose_stats}, the dispatcher returns a normal response with
`isError: true` whose single text content block is
`Error: Unknown tool: <name>` in the single-tenant SSE server and
`❌ Error: Unknown tool: <name>` in the OAuth server (the thrown
`Unknown tool: <name>` is caught and prefixed by the catch block); the
invocation never throws out of the handler. -/
theorem unknown_tool_error_block
    (api : HealthDataAPI) (env : DateOps) (oenv : OAuthEnv)
    (du name tok : String) (args : ToolArgs)
    (hname : name ∉ ["search", "fetch", "get_glucose_readings",
      "get_latest_glucose", "get_glucose_stats"])
    (hdu : effectiveUserId args du ≠ "") :
    callToolHttp api env du name args =
      textResponse ("Error: " ++ ("Unknown tool: " ++ name)) true ∧
    callToolOAuth (some tok) oenv name args =
      textResponse ("❌ Error: " ++ ("Unknown tool: " ++ name)) true := by
  have h1 : name ≠ "search" := by intro e; exact hname (by simp [e])
  have h2 : name ≠ "fetch" := by intro e; exact hname (by simp [e])
  have h3 : name ≠ "get_glucose_readings" := by intro e; exact hname (by simp [e])
  have h4 : name ≠ "get_latest_glucose" := by intro e; exact hname (by simp [e])
  have h5 : name ≠ "get_glucose_stats" := by intro e; exact hname (by simp [e])
  constructor
  · simp [callToolHttp, hdu, runToolFive, h1, h2, h3, h4, h5]
  · simp [callToolOAuth, runToolFive, h1, h2, h3, h4, h5]

theorem unknown_tool_error_block_witness :
    ("bogus" ∉ ["search", "fetch", "get_glucose_readings",
      "get_latest_glucose", "get_glucose_stats"] ∧
     effectiveUserId noArgs "lucas@example.com" ≠ "") ∧
    (callToolHttp windowApi strictDates "lucas@example.com" "bogus" noArgs =
       textResponse ("Error: " ++ ("Unknown tool: " ++ "bogus")) true ∧
     callToolOAuth (some "tok-1") sampleOAuthEnv "bogus" noArgs =
       textResponse ("❌ Error: " ++ ("Unknown tool: " ++ "bogus")) true) :=
  ⟨⟨by decide, by decide⟩,
   unknown_tool_error_block windowApi strictDates sampleOAuthEnv
     "lucas@example.com" "bogus" "tok-1" noArgs (by decide) (by decide)⟩

/-- Claim C5 (code bug): the fetch capability cannot return the reading whose
timestamp exactly equals the timestamp in the documented id format.
`id.split(':')` splits on every colon, so for
`reading:2024-01-15T10:30:00Z` the destructured `timestamp` is the
truncated `2024-01-15T10`.  Under Node's date parsing that string is an
Invalid Date, so `toISOString()` throws and the call returns the
`Invalid time value` error block without even querying the collaborator;
under a hypothetical lenient parser the ±1h window query proceeds but
the exact-match `find` compares readings against the truncated string
and misses the reading dated `2024-01-15T10:30:00Z` that the collaborator
returned, yielding the NotFound error block.  Either way the reading
present in the window is never returned.  The last conjunct exhibits the
truncation itself. -/
theorem fetch_exact_match_bug :
    callToolOAuth (some "tok-1") ⟨strictDates, fun _ => windowApi⟩ "fetch"
      ⟨none, some "reading:2024-01-15T10:30:00Z", none, none, none, none⟩ =
      textResponse "❌ Error: Invalid time value" true ∧
    callToolOAuth (some "tok-1") ⟨lenientDates, fun _ => windowApi⟩ "fetch"
      ⟨none, some "reading:2024-01-15T10:30:00Z", none, none, none, none⟩ =
      textResponse "❌ Error: Reading not found for ID: reading:2024-01-15T10:30:00Z" true ∧
    callToolHttp windowApi lenientDates "lucas@example.com" "fetch"
      ⟨none, some "reading:2024-01-15T10:30:00Z", none, none, none, none⟩ =
      textResponse "Error: Reading not found for ID: reading:2024-01-15T10:30:00Z" true ∧
    (windowApi.getGlucoseReadings ⟨"oauth-user", some "a", some "b", some 100⟩ =
      .ok [⟨95, "mg/dL", "2024-01-15T10:30:00Z", "Lingo"⟩]) ∧
    (jsSplitColon "reading:2024-01-15T10:30:00Z")[1]? = some "2024-01-15T10" := by
  exact ⟨by decide, by decide, by decide, rfl, by decide⟩

/-- Claim C10: Implicit userId precondition in the single-tenant servers.
When the call supplies no `userId` argument (absent or the falsy empty
string) and no default user is configured (`USER_ID` empty), both the
stdio and the single-tenant SSE dispatcher return `isError: true` with
the `userId is required` message — for every capability name, including
unknown ones (so before tool-name validation), and for every collaborator
(so before any remote call, as the result is independent of it). -/
theorem userid_guard_first
    (api api2 : HealthDataAPI) (env : DateOps) (name : String)
    (args : ToolArgs)
    (hu : args.userId = none ∨ args.userId = some "") :
    callToolStdio api "" name args = textResponse userIdRequiredMsg true ∧
    callToolHttp api env "" name args = textResponse userIdRequiredMsg true ∧
    callToolStdio api "" name args = callToolStdio api2 "" name args ∧
    callToolHttp api env "" name args = callToolHttp api2 env "" name args := by
  have he : effectiveUserId args "" = "" := by
    rcases hu with h | h <;> simp [effectiveUserId, h]
  have s1 : ∀ a : HealthDataAPI, callToolStdio a "" name args =
      textResponse userIdRequiredMsg true := by
    intro a; simp [callToolStdio, he]
  have s2 : ∀ a : HealthDataAPI, callToolHttp a env "" name args =
      textResponse userIdRequiredMsg true := by
    intro a; simp [callToolHttp, he]
  exact ⟨s1 api, s2 api, (s1 api).trans (s1 api2).symm,
    (s2 api).trans (s2 api2).symm⟩

theorem userid_guard_first_witness :
    (noArgs.userId = none ∨ noArgs.userId = some "") ∧
    (callToolStdio windowApi "" "bogus" noArgs =
       textResponse userIdRequiredMsg true ∧
     callToolHttp windowApi strictDates "" "bogus" noArgs =
       textResponse userIdRequiredMsg true ∧
     callToolStdio windowApi "" "bogus" noArgs =
       callToolStdio otherApi "" "bogus" noArgs ∧
     callToolHttp windowApi strictDates "" "bogus" noArgs =
       callToolHttp otherApi strictDates "" "bogus" noArgs) :=
  ⟨Or.inl rfl,
   userid_guard_first windowApi otherApi strictDates "bogus" noArgs (Or.inl rfl)⟩
